import Mathlib

/-!
Verification of the `InteractionHandler` class declared in
`moveit_ros/robot_interaction/include/moveit/robot_interaction/interaction_handler.h`.

The header declares the class contract and its data members:
  - `name_ : std::string`
  - `error_state_ : std::set<std::string>`
  - `offset_map_ : std::map<std::string, geometry_msgs::Pose>`
  - `pose_map_ : std::map<std::string, geometry_msgs::PoseStamped>`
  - `display_meshes_ / display_controls_ : bool`
  - `update_callback_ : boost::function<void(InteractionHandler*, bool)>`
  - `kstate_ : robot_state::RobotStatePtr`
  - `menu_handler_`
The bodies of `setMeshesVisible`, `getMeshesVisible`, `setControlsVisible`,
`getControlsVisible`, `getName`, `setUpdateCallback` and `getUpdateCallback`
are inline in the header and are embedded here directly from the source.
The remaining member-function bodies live in `interaction_handler.cpp`,
which is not part of the supplied sources; those are modelled from the
specification, as marked on each definition.
-/

/-- `geometry_msgs::Pose`: a position and an orientation quaternion.  The
claims treat poses as opaque stored data (no arithmetic is performed on
them anywhere in the supplied material), so the coordinates are embedded
as integers. -/
structure Pose where
  px : Int
  py : Int
  pz : Int
  ox : Int
  oy : Int
  oz : Int
  ow : Int
  deriving DecidableEq, Repr

/-- `geometry_msgs::PoseStamped`: a pose together with a header frame. -/
structure PoseStamped where
  frame_id : String
  pose : Pose
  deriving DecidableEq, Repr

/-- The shared robot state `robot_state::RobotState`.  Its structure is
external to the supplied sources; the claims only ever replace it whole,
so it is embedded as an opaque value. -/
abbrev RobotState : Type := Nat

/-- An association-list embedding of `std::map<std::string, β>` restricted
to the operations the header uses: `operator[]` assignment (insert or
assign), `find` (lookup), `erase(key)` and `clear()`. -/
def StdMap (β : Type) : Type := List (String × β)

instance {β : Type} [DecidableEq β] : DecidableEq (StdMap β) :=
  inferInstanceAs (DecidableEq (List (String × β)))

namespace StdMap

/-- The empty map (`std::map` default construction / after `clear()`). -/
def empty {β : Type} : StdMap β := []

/-- `m.find(k)`: the value stored at `k`, if any. -/
def find? {β : Type} (m : StdMap β) (k : String) : Option β :=
  match m with
  | [] => none
  | (k', v) :: rest => if k' = k then some v else find? rest k

/-- `m[k] = v`: insert `v` at `k`, overwriting any previous value. -/
def insert {β : Type} (m : StdMap β) (k : String) (v : β) : StdMap β :=
  match m with
  | [] => [(k, v)]
  | (k', v') :: rest =>
      if k' = k then (k, v) :: rest else (k', v') :: insert rest k v

/-- `m.erase(k)`: remove the entry at `k`, if present.  (`std::map` keys
are unique; removing every entry at `k` coincides with that behaviour.) -/
def erase {β : Type} (m : StdMap β) (k : String) : StdMap β :=
  match m with
  | [] => []
  | (k', v') :: rest => if k' = k then erase rest k else (k', v') :: erase rest k

theorem find?_empty {β : Type} (k : String) : (empty (β := β)).find? k = none := rfl

theorem find?_insert_self {β : Type} (m : StdMap β) (k : String) (v : β) :
    (m.insert k v).find? k = some v := by
  induction m with
  | nil => simp [insert, find?]
  | cons hd tl ih =>
      obtain ⟨k', v'⟩ := hd
      by_cases hk : k' = k
      · simp [insert, hk, find?]
      · simp [insert, hk, find?, ih]

theorem find?_insert_ne {β : Type} (m : StdMap β) (k k' : String) (v : β)
    (h : k ≠ k') : (m.insert k v).find? k' = m.find? k' := by
  induction m with
  | nil => simp [insert, find?, h]
  | cons hd tl ih =>
      obtain ⟨k0, v0⟩ := hd
      by_cases hk : k0 = k
      · subst hk
        simp [insert, find?, h]
      · by_cases hk' : k0 = k'
        · simp [insert, hk, find?, hk', Ne.symm h]
        · simp [insert, hk, find?, hk', ih]

theorem find?_erase_self {β : Type} (m : StdMap β) (k : String) :
    (m.erase k).find? k = none := by
  induction m with
  | nil => simp [erase, find?]
  | cons hd tl ih =>
      obtain ⟨k0, v0⟩ := hd
      by_cases hk : k0 = k
      · simp [erase, hk, ih]
      · simp [erase, hk, find?, ih]

theorem find?_erase_ne {β : Type} (m : StdMap β) (k k' : String)
    (h : k ≠ k') : (m.erase k).find? k' = m.find? k' := by
  induction m with
  | nil => simp [erase, find?]
  | cons hd tl ih =>
      obtain ⟨k0, v0⟩ := hd
      by_cases hk : k0 = k
      · subst hk
        simp [erase, find?, h, ih]
      · simp [erase, hk, find?, ih]

end StdMap

/-- Modelled from the spec: `EndEffectorInteraction` is defined in
`robot_interaction.h`, which is not among the supplied sources.  The spec
describes it only as a named control target (an end-effector driven by a
marker), so the embedding keeps the field the handler keys its maps on:
the end-effector group name. -/
structure EndEffectorInteraction where
  eef_group : String
  deriving DecidableEq, Repr

/-- Modelled from the spec: `JointInteraction` is defined in
`robot_interaction.h`, which is not among the supplied sources.  The spec
describes it only as a named control target (a single joint driven by a
marker), so the embedding keeps the joint name the handler keys its maps
on. -/
structure JointInteraction where
  joint_name : String
  deriving DecidableEq, Repr

/-- Modelled from the spec: `GenericInteraction` is defined in
`robot_interaction.h`, which is not among the supplied sources.  The spec
describes it as a marker/feedback type not tied to a joint or
end-effector, identified by its marker name. -/
structure GenericInteraction where
  marker_name : String
  deriving DecidableEq, Repr

/-- The state of an `InteractionHandler`, embedding the data members
declared in `interaction_handler.h` (lines 248-304).  The update callback
is a `boost::function` supplied by the client; only whether one is
installed is observable inside the handler, so it is embedded as a flag,
and the `handle*` functions below return the flag value they pass to the
callback.  The menu handler and the robot state are opaque external
values. -/
structure InteractionHandler where
  name_ : String
  planning_frame_ : String
  error_state_ : Finset String
  menu_handler_ : Option Nat
  update_callback_ : Bool
  display_meshes_ : Bool
  display_controls_ : Bool
  kstate_ : RobotState
  offset_map_ : StdMap Pose
  pose_map_ : StdMap PoseStamped
  deriving DecidableEq

namespace InteractionHandler

/-- Modelled from the spec: the constructors' bodies are in
`interaction_handler.cpp`, absent from the supplied sources.  Each
constructor receives the handler's name and starts with empty maps and an
empty error set. -/
def mkHandler (name : String) (planningFrame : String) (initialState : RobotState) :
    InteractionHandler :=
  { name_ := name
    planning_frame_ := planningFrame
    error_state_ := ∅
    menu_handler_ := none
    update_callback_ := false
    display_meshes_ := true
    display_controls_ := true
    kstate_ := initialState
    offset_map_ := StdMap.empty
    pose_map_ := StdMap.empty }

/-- `getName`, inline in the header: returns `name_`. -/
def getName (h : InteractionHandler) : String :=
  h.name_

/-- Modelled from the spec: `getState` returns the maintained robot
configuration (body in `interaction_handler.cpp`). -/
def getState (h : InteractionHandler) : RobotState :=
  h.kstate_

/-- Modelled from the spec: `setState` replaces the maintained robot
configuration (body in `interaction_handler.cpp`). -/
def setState (h : InteractionHandler) (kstate : RobotState) : InteractionHandler :=
  { h with kstate_ := kstate }

/-- `setUpdateCallback`, inline in the header: stores the callback. -/
def setUpdateCallback (h : InteractionHandler) (installed : Bool) : InteractionHandler :=
  { h with update_callback_ := installed }

/-- `getUpdateCallback`, inline in the header: returns the callback. -/
def getUpdateCallback (h : InteractionHandler) : Bool :=
  h.update_callback_

/-- `setMeshesVisible`, inline in the header: `display_meshes_ = visible`. -/
def setMeshesVisible (h : InteractionHandler) (visible : Bool) : InteractionHandler :=
  { h with display_meshes_ := visible }

/-- `getMeshesVisible`, inline in the header: returns `display_meshes_`. -/
def getMeshesVisible (h : InteractionHandler) : Bool :=
  h.display_meshes_

/-- `setControlsVisible`, inline in the header: `display_controls_ = visible`. -/
def setControlsVisible (h : InteractionHandler) (visible : Bool) : InteractionHandler :=
  { h with display_controls_ := visible }

/-- `getControlsVisible`, inline in the header: returns `display_controls_`. -/
def getControlsVisible (h : InteractionHandler) : Bool :=
  h.display_controls_

/-- Modelled from the spec: the end-effector overload of `setPoseOffset`
(body in `interaction_handler.cpp`) stores the offset in `offset_map_`
under the end-effector control-target name. -/
def setPoseOffsetEef (h : InteractionHandler) (eef : EndEffectorInteraction)
    (m : Pose) : InteractionHandler :=
  { h with offset_map_ := h.offset_map_.insert eef.eef_group m }

/-- Modelled from the spec: the joint overload of `setPoseOffset`
(body in `interaction_handler.cpp`) stores the offset in `offset_map_`
under the joint control-target name. -/
def setPoseOffsetJoint (h : InteractionHandler) (vj : JointInteraction)
    (m : Pose) : InteractionHandler :=
  { h with offset_map_ := h.offset_map_.insert vj.joint_name m }

/-- Modelled from the spec: the end-effector overload of `getPoseOffset`
(body in `interaction_handler.cpp`); `some m` embeds a `true` return with
the offset written to the out-parameter, `none` embeds a `false` return
(out-parameter not valid). -/
def getPoseOffsetEef (h : InteractionHandler) (eef : EndEffectorInteraction) :
    Option Pose :=
  h.offset_map_.find? eef.eef_group

/-- Modelled from the spec: the joint overload of `getPoseOffset`
(body in `interaction_handler.cpp`). -/
def getPoseOffsetJoint (h : InteractionHandler) (vj : JointInteraction) :
    Option Pose :=
  h.offset_map_.find? vj.joint_name

/-- Modelled from the spec: the end-effector overload of `clearPoseOffset`
(body in `interaction_handler.cpp`) erases the entry for that target. -/
def clearPoseOffsetEef (h : InteractionHandler) (eef : EndEffectorInteraction) :
    InteractionHandler :=
  { h with offset_map_ := h.offset_map_.erase eef.eef_group }

/-- Modelled from the spec: the joint overload of `clearPoseOffset`
(body in `interaction_handler.cpp`) erases the entry for that target. -/
def clearPoseOffsetJoint (h : InteractionHandler) (vj : JointInteraction) :
    InteractionHandler :=
  { h with offset_map_ := h.offset_map_.erase vj.joint_name }

/-- Modelled from the spec: `clearPoseOffsets` (body in
`interaction_handler.cpp`) empties `offset_map_` entirely. -/
def clearPoseOffsets (h : InteractionHandler) : InteractionHandler :=
  { h with offset_map_ := StdMap.empty }

/-- Modelled from the spec: `setMenuHandler` (body in
`interaction_handler.cpp`) stores the menu handler. -/
def setMenuHandler (h : InteractionHandler) (mh : Nat) : InteractionHandler :=
  { h with menu_handler_ := some mh }

/-- Modelled from the spec: `getMenuHandler` (body in
`interaction_handler.cpp`) returns the stored menu handler. -/
def getMenuHandler (h : InteractionHandler) : Option Nat :=
  h.menu_handler_

/-- Modelled from the spec: `clearMenuHandler` (body in
`interaction_handler.cpp`) removes the menu handler. -/
def clearMenuHandler (h : InteractionHandler) : InteractionHandler :=
  { h with menu_handler_ := none }

/-- Modelled from the spec: `getLastEndEffectorMarkerPose` (body in
`interaction_handler.cpp`) looks up the last offset-removed feedback pose
for the end-effector in `pose_map_`; `some p` embeds a `true` return. -/
def getLastEndEffectorMarkerPose (h : InteractionHandler)
    (eef : EndEffectorInteraction) : Option PoseStamped :=
  h.pose_map_.find? eef.eef_group

/-- Modelled from the spec: `getLastJointMarkerPose` (body in
`interaction_handler.cpp`) looks up the last offset-removed feedback pose
for the joint in `pose_map_`. -/
def getLastJointMarkerPose (h : InteractionHandler)
    (vj : JointInteraction) : Option PoseStamped :=
  h.pose_map_.find? vj.joint_name

/-- Modelled from the spec: `clearLastEndEffectorMarkerPose` (body in
`interaction_handler.cpp`) erases the pose entry for that end-effector. -/
def clearLastEndEffectorMarkerPose (h : InteractionHandler)
    (eef : EndEffectorInteraction) : InteractionHandler :=
  { h with pose_map_ := h.pose_map_.erase eef.eef_group }

/-- Modelled from the spec: `clearLastJointMarkerPose` (body in
`interaction_handler.cpp`) erases the pose entry for that joint. -/
def clearLastJointMarkerPose (h : InteractionHandler)
    (vj : JointInteraction) : InteractionHandler :=
  { h with pose_map_ := h.pose_map_.erase vj.joint_name }

/-- Modelled from the spec: `clearLastMarkerPoses` (body in
`interaction_handler.cpp`) empties `pose_map_` entirely. -/
def clearLastMarkerPoses (h : InteractionHandler) : InteractionHandler :=
  { h with pose_map_ := StdMap.empty }

/-- Modelled from the spec: the end-effector overload of `inError` (body
in `interaction_handler.cpp`) checks whether the end-effector
control-target name is in `error_state_`. -/
def inErrorEef (h : InteractionHandler) (eef : EndEffectorInteraction) : Bool :=
  decide (eef.eef_group ∈ h.error_state_)

/-- Modelled from the spec: the joint overload of `inError` (body in
`interaction_handler.cpp`). -/
def inErrorJoint (h : InteractionHandler) (vj : JointInteraction) : Bool :=
  decide (vj.joint_name ∈ h.error_state_)

/-- Modelled from the spec: the generic overload of `inError` (body in
`interaction_handler.cpp`). -/
def inErrorGeneric (h : InteractionHandler) (g : GenericInteraction) : Bool :=
  decide (g.marker_name ∈ h.error_state_)

/-- Modelled from the spec: `clearError` (body in
`interaction_handler.cpp`) resets all error flags unconditionally. -/
def clearError (h : InteractionHandler) : InteractionHandler :=
  { h with error_state_ := ∅ }

/-- Modelled from the spec: `handleEndEffector` (body in
`interaction_handler.cpp`).  The feedback message and its frame transform
(`transformFeedbackPose`, external `tf` service) are embedded by passing
the resulting offset-removed stamped pose `tpose` directly; the external
IK solver is embedded by its outcome `ikSuccess` and, on success, the
resolved state `newState`.  Per the spec: store `tpose` in `pose_map_`
(even when IK fails), update `error_state_` according to the IK outcome,
and trigger the update callback if installed, passing whether the error
status changed.  Returns the new handler state and `some flag` exactly
when the callback was invoked with that flag. -/
def handleEndEffector (h : InteractionHandler) (eef : EndEffectorInteraction)
    (tpose : PoseStamped) (ikSuccess : Bool) (newState : RobotState) :
    InteractionHandler × Option Bool :=
  let key := eef.eef_group
  let wasError : Bool := decide (key ∈ h.error_state_)
  let errSet := if ikSuccess then h.error_state_.erase key else insert key h.error_state_
  let h' := { h with
    pose_map_ := h.pose_map_.insert key tpose
    error_state_ := errSet
    kstate_ := if ikSuccess then newState else h.kstate_ }
  let changed : Bool := wasError != decide (key ∈ errSet)
  (h', if h.update_callback_ then some changed else none)

/-- Modelled from the spec: `handleJoint` (body in
`interaction_handler.cpp`), as `handleEndEffector` but keyed on the joint
control-target name. -/
def handleJoint (h : InteractionHandler) (vj : JointInteraction)
    (tpose : PoseStamped) (ikSuccess : Bool) (newState : RobotState) :
    InteractionHandler × Option Bool :=
  let key := vj.joint_name
  let wasError : Bool := decide (key ∈ h.error_state_)
  let errSet := if ikSuccess then h.error_state_.erase key else insert key h.error_state_
  let h' := { h with
    pose_map_ := h.pose_map_.insert key tpose
    error_state_ := errSet
    kstate_ := if ikSuccess then newState else h.kstate_ }
  let changed : Bool := wasError != decide (key ∈ errSet)
  (h', if h.update_callback_ then some changed else none)

/-- Modelled from the spec: `handleGeneric` (body in
`interaction_handler.cpp`).  A generic interaction is handled through its
own external process callback, embedded by its outcome `processSuccess`
and resulting state `newState`; the error set and the update callback are
treated as for the other targets.  Generic targets have no entry in
`pose_map_`. -/
def handleGeneric (h : InteractionHandler) (g : GenericInteraction)
    (processSuccess : Bool) (newState : RobotState) :
    InteractionHandler × Option Bool :=
  let key := g.marker_name
  let wasError : Bool := decide (key ∈ h.error_state_)
  let errSet := if processSuccess then h.error_state_.erase key else insert key h.error_state_
  let h' := { h with
    error_state_ := errSet
    kstate_ := if processSuccess then newState else h.kstate_ }
  let changed : Bool := wasError != decide (key ∈ errSet)
  (h', if h.update_callback_ then some changed else none)

end InteractionHandler

/-- Both maps of a handler observed at one control-target name: the stored
pose offset and the stored last marker pose.  Used to state that an
operation on one target leaves another target's entries unchanged. -/
def InteractionHandler.entriesAt (h : InteractionHandler) (name : String) :
    Option Pose × Option PoseStamped :=
  (h.offset_map_.find? name, h.pose_map_.find? name)

/-- Claim C1: `clearError` empties the error-state set unconditionally, so
every subsequent `inError` call (end-effector, joint or generic) returns
`false`; `inError t` returns `true` exactly when the control-target name
of `t` is in the error-state set; and a successful `handle*` update never
inserts into the error set (it only removes), so the error set stays
empty until a failing update re-inserts a target, which a failing update
does. -/
theorem C1_clearError_resets_error_state
    (h : InteractionHandler) (eef : EndEffectorInteraction)
    (vj : JointInteraction) (g : GenericInteraction)
    (tpose : PoseStamped) (ns : RobotState) :
    h.clearError.error_state_ = ∅ ∧
    h.clearError.inErrorEef eef = false ∧
    h.clearError.inErrorJoint vj = false ∧
    h.clearError.inErrorGeneric g = false ∧
    h.inErrorEef eef = decide (eef.eef_group ∈ h.error_state_) ∧
    h.inErrorJoint vj = decide (vj.joint_name ∈ h.error_state_) ∧
    h.inErrorGeneric g = decide (g.marker_name ∈ h.error_state_) ∧
    (h.handleEndEffector eef tpose true ns).1.error_state_ ⊆ h.error_state_ ∧
    (h.handleJoint vj tpose true ns).1.error_state_ ⊆ h.error_state_ ∧
    (h.handleGeneric g true ns).1.error_state_ ⊆ h.error_state_ ∧
    (h.handleEndEffector eef tpose true ns).1.inErrorEef eef = false ∧
    (h.handleJoint vj tpose true ns).1.inErrorJoint vj = false ∧
    (h.handleGeneric g true ns).1.inErrorGeneric g = false ∧
    (h.handleEndEffector eef tpose false ns).1.inErrorEef eef = true ∧
    (h.handleJoint vj tpose false ns).1.inErrorJoint vj = true ∧
    (h.handleGeneric g false ns).1.inErrorGeneric g = true := by
  refine ⟨rfl, ?_, ?_, ?_, rfl, rfl, rfl, ?_, ?_, ?_, ?_, ?_, ?_, ?_, ?_, ?_⟩
  · simp [InteractionHandler.clearError, InteractionHandler.inErrorEef]
  · simp [InteractionHandler.clearError, InteractionHandler.inErrorJoint]
  · simp [InteractionHandler.clearError, InteractionHandler.inErrorGeneric]
  · simp [InteractionHandler.handleEndEffector]
    exact Finset.erase_subset _ _
  · simp [InteractionHandler.handleJoint]
    exact Finset.erase_subset _ _
  · simp [InteractionHandler.handleGeneric]
    exact Finset.erase_subset _ _
  · simp [InteractionHandler.handleEndEffector, InteractionHandler.inErrorEef]
  · simp [InteractionHandler.handleJoint, InteractionHandler.inErrorJoint]
  · simp [InteractionHandler.handleGeneric, InteractionHandler.inErrorGeneric]
  · simp [InteractionHandler.handleEndEffector, InteractionHandler.inErrorEef]
  · simp [InteractionHandler.handleJoint, InteractionHandler.inErrorJoint]
  · simp [InteractionHandler.handleGeneric, InteractionHandler.inErrorGeneric]

/-- Claim C2: pose offsets are independently settable and clearable per
target: after `setPoseOffset(t, m)`, `getPoseOffset(t)` returns `true`
with `m` (embedded as `some m`); after `clearPoseOffset(t)`,
`getPoseOffset(t)` returns `false` (embedded as `none`), for both the
end-effector and the joint overloads. -/
theorem C2_pose_offset_set_get_clear
    (h : InteractionHandler) (eef : EndEffectorInteraction)
    (vj : JointInteraction) (m : Pose) :
    (h.setPoseOffsetEef eef m).getPoseOffsetEef eef = some m ∧
    (h.clearPoseOffsetEef eef).getPoseOffsetEef eef = none ∧
    (h.setPoseOffsetJoint vj m).getPoseOffsetJoint vj = some m ∧
    (h.clearPoseOffsetJoint vj).getPoseOffsetJoint vj = none := by
  refine ⟨?_, ?_, ?_, ?_⟩
  · exact StdMap.find?_insert_self h.offset_map_ eef.eef_group m
  · exact StdMap.find?_erase_self h.offset_map_ eef.eef_group
  · exact StdMap.find?_insert_self h.offset_map_ vj.joint_name m
  · exact StdMap.find?_erase_self h.offset_map_ vj.joint_name

/-- Claim C4: `clearPoseOffsets()` empties `offset_map_` entirely and
`clearLastMarkerPoses()` empties `pose_map_` entirely, so afterwards the
respective getters return `false` (embedded as `none`) for every
end-effector and joint target. -/
theorem C4_clear_all_offsets_and_poses
    (h : InteractionHandler) (eef : EndEffectorInteraction)
    (vj : JointInteraction) :
    h.clearPoseOffsets.offset_map_ = StdMap.empty ∧
    h.clearLastMarkerPoses.pose_map_ = StdMap.empty ∧
    h.clearPoseOffsets.getPoseOffsetEef eef = none ∧
    h.clearPoseOffsets.getPoseOffsetJoint vj = none ∧
    h.clearLastMarkerPoses.getLastEndEffectorMarkerPose eef = none ∧
    h.clearLastMarkerPoses.getLastJointMarkerPose vj = none :=
  ⟨rfl, rfl, rfl, rfl, rfl, rfl⟩

/-- Claim C5: the last-feedback-pose map survives IK failure: after any
`handleEndEffector` or `handleJoint` call (with any IK outcome), the
offset-removed pose is stored and retrievable via the corresponding
getter, and when the IK resolution fails the target is placed in the
error set. -/
theorem C5_pose_map_survives_ik_failure
    (h : InteractionHandler) (eef : EndEffectorInteraction)
    (vj : JointInteraction) (tpose : PoseStamped) (ns : RobotState)
    (ik : Bool) :
    (h.handleEndEffector eef tpose ik ns).1.getLastEndEffectorMarkerPose eef = some tpose ∧
    (h.handleJoint vj tpose ik ns).1.getLastJointMarkerPose vj = some tpose ∧
    (h.handleEndEffector eef tpose false ns).1.inErrorEef eef = true ∧
    (h.handleJoint vj tpose false ns).1.inErrorJoint vj = true := by
  refine ⟨?_, ?_, ?_, ?_⟩
  · exact StdMap.find?_insert_self h.pose_map_ eef.eef_group tpose
  · exact StdMap.find?_insert_self h.pose_map_ vj.joint_name tpose
  · simp [InteractionHandler.handleEndEffector, InteractionHandler.inErrorEef]
  · simp [InteractionHandler.handleJoint, InteractionHandler.inErrorJoint]

/-- Claim C6: every `handle*` call invokes the update callback exactly
when one is installed, passing a flag that is `true` exactly when the
error status of the target switched between failing and succeeding as a
result of the update (the flag equals the boolean difference between
`inError` before and after). -/
theorem C6_update_callback_flag
    (h : InteractionHandler) (eef : EndEffectorInteraction)
    (vj : JointInteraction) (g : GenericInteraction)
    (tpose : PoseStamped) (ns : RobotState) (ok : Bool) :
    (h.handleEndEffector eef tpose ok ns).2 =
      (if h.update_callback_ then
        some (h.inErrorEef eef != (h.handleEndEffector eef tpose ok ns).1.inErrorEef eef)
       else none) ∧
    (h.handleJoint vj tpose ok ns).2 =
      (if h.update_callback_ then
        some (h.inErrorJoint vj != (h.handleJoint vj tpose ok ns).1.inErrorJoint vj)
       else none) ∧
    (h.handleGeneric g ok ns).2 =
      (if h.update_callback_ then
        some (h.inErrorGeneric g != (h.handleGeneric g ok ns).1.inErrorGeneric g)
       else none) :=
  ⟨rfl, rfl, rfl⟩

/-- Claim C9: the visibility flags round-trip exactly and are
independent: `setMeshesVisible v` makes `getMeshesVisible` return `v` and
leaves `getControlsVisible` (and every other handler field) unchanged,
and symmetrically for `setControlsVisible`. -/
theorem C9_visibility_flags_independent
    (h : InteractionHandler) (v : Bool) :
    (h.setMeshesVisible v).getMeshesVisible = v ∧
    (h.setMeshesVisible v).getControlsVisible = h.getControlsVisible ∧
    (h.setControlsVisible v).getControlsVisible = v ∧
    (h.setControlsVisible v).getMeshesVisible = h.getMeshesVisible ∧
    (h.setMeshesVisible v).name_ = h.name_ ∧
    (h.setMeshesVisible v).planning_frame_ = h.planning_frame_ ∧
    (h.setMeshesVisible v).error_state_ = h.error_state_ ∧
    (h.setMeshesVisible v).menu_handler_ = h.menu_handler_ ∧
    (h.setMeshesVisible v).update_callback_ = h.update_callback_ ∧
    (h.setMeshesVisible v).kstate_ = h.kstate_ ∧
    (h.setMeshesVisible v).offset_map_ = h.offset_map_ ∧
    (h.setMeshesVisible v).pose_map_ = h.pose_map_ ∧
    (h.setControlsVisible v).name_ = h.name_ ∧
    (h.setControlsVisible v).planning_frame_ = h.planning_frame_ ∧
    (h.setControlsVisible v).error_state_ = h.error_state_ ∧
    (h.setControlsVisible v).menu_handler_ = h.menu_handler_ ∧
    (h.setControlsVisible v).update_callback_ = h.update_callback_ ∧
    (h.setControlsVisible v).kstate_ = h.kstate_ ∧
    (h.setControlsVisible v).offset_map_ = h.offset_map_ ∧
    (h.setControlsVisible v).pose_map_ = h.pose_map_ :=
  ⟨rfl, rfl, rfl, rfl, rfl, rfl, rfl, rfl, rfl, rfl, rfl, rfl,
   rfl, rfl, rfl, rfl, rfl, rfl, rfl, rfl⟩

/-- Claim C10: the handler's name is fixed at construction: `getName`
returns the name passed to the constructor, and no public operation
(`setState`, `setUpdateCallback`, visibility setters, pose-offset
mutators, menu-handler mutators, last-pose mutators, `handle*`,
`clearError`) ever changes `name_`. -/
theorem C10_name_fixed_at_construction
    (h : InteractionHandler) (name pf : String) (st ns : RobotState)
    (eef : EndEffectorInteraction) (vj : JointInteraction)
    (g : GenericInteraction) (m : Pose) (tpose : PoseStamped)
    (cb ok v : Bool) (mh : Nat) :
    (InteractionHandler.mkHandler name pf st).getName = name ∧
    (h.setState st).getName = h.getName ∧
    (h.setUpdateCallback cb).getName = h.getName ∧
    (h.setMeshesVisible v).getName = h.getName ∧
    (h.setControlsVisible v).getName = h.getName ∧
    (h.setPoseOffsetEef eef m).getName = h.getName ∧
    (h.setPoseOffsetJoint vj m).getName = h.getName ∧
    (h.clearPoseOffsetEef eef).getName = h.getName ∧
    (h.clearPoseOffsetJoint vj).getName = h.getName ∧
    h.clearPoseOffsets.getName = h.getName ∧
    (h.setMenuHandler mh).getName = h.getName ∧
    h.clearMenuHandler.getName = h.getName ∧
    (h.clearLastEndEffectorMarkerPose eef).getName = h.getName ∧
    (h.clearLastJointMarkerPose vj).getName = h.getName ∧
    h.clearLastMarkerPoses.getName = h.getName ∧
    (h.handleEndEffector eef tpose ok ns).1.getName = h.getName ∧
    (h.handleJoint vj tpose ok ns).1.getName = h.getName ∧
    (h.handleGeneric g ok ns).1.getName = h.getName ∧
    h.clearError.getName = h.getName :=
  ⟨rfl, rfl, rfl, rfl, rfl, rfl, rfl, rfl, rfl, rfl, rfl, rfl, rfl,
   rfl, rfl, rfl, rfl, rfl, rfl⟩

/-- A concrete pose used to exercise the theorems on concrete inputs. -/
def samplePose : Pose :=
  { px := 1, py := 2, pz := 3, ox := 0, oy := 0, oz := 0, ow := 1 }

/-- A second concrete pose, distinct from `samplePose`. -/
def samplePose2 : Pose :=
  { px := 4, py := 5, pz := 6, ox := 0, oy := 1, oz := 0, ow := 0 }

/-- A concrete stamped pose used to exercise the theorems. -/
def samplePoseStamped : PoseStamped :=
  { frame_id := "odom_combined", pose := samplePose }

/-- A concrete handler with one offset entry, one last-pose entry and one
error-state entry, all at control-target name `b`. -/
def sampleHandler : InteractionHandler :=
  { name_ := "handler0"
    planning_frame_ := "odom_combined"
    error_state_ := {"b"}
    menu_handler_ := none
    update_callback_ := true
    display_meshes_ := true
    display_controls_ := true
    kstate_ := 0
    offset_map_ := [("b", samplePose)]
    pose_map_ := [("b", samplePoseStamped)] }

/-- Claim C3: per-target isolation: an operation on a control target whose
name differs from `t2` (setting or clearing a pose offset, clearing a last
marker pose, or a `handle*` update) leaves both of `t2`'s stored entries
(offset and last marker pose) unchanged. -/
theorem C3_per_target_isolation
    (h : InteractionHandler) (eef1 : EndEffectorInteraction)
    (vj1 : JointInteraction) (t2 : String) (m : Pose)
    (tpose : PoseStamped) (ns : RobotState) (ok : Bool)
    (he : eef1.eef_group ≠ t2) (hj : vj1.joint_name ≠ t2) :
    (h.setPoseOffsetEef eef1 m).entriesAt t2 = h.entriesAt t2 ∧
    (h.setPoseOffsetJoint vj1 m).entriesAt t2 = h.entriesAt t2 ∧
    (h.clearPoseOffsetEef eef1).entriesAt t2 = h.entriesAt t2 ∧
    (h.clearPoseOffsetJoint vj1).entriesAt t2 = h.entriesAt t2 ∧
    (h.clearLastEndEffectorMarkerPose eef1).entriesAt t2 = h.entriesAt t2 ∧
    (h.clearLastJointMarkerPose vj1).entriesAt t2 = h.entriesAt t2 ∧
    ((h.handleEndEffector eef1 tpose ok ns).1).entriesAt t2 = h.entriesAt t2 ∧
    ((h.handleJoint vj1 tpose ok ns).1).entriesAt t2 = h.entriesAt t2 := by
  unfold InteractionHandler.entriesAt
  refine ⟨?_, ?_, ?_, ?_, ?_, ?_, ?_, ?_⟩
  · simp [InteractionHandler.setPoseOffsetEef, StdMap.find?_insert_ne _ _ _ _ he]
  · simp [InteractionHandler.setPoseOffsetJoint, StdMap.find?_insert_ne _ _ _ _ hj]
  · simp [InteractionHandler.clearPoseOffsetEef, StdMap.find?_erase_ne _ _ _ he]
  · simp [InteractionHandler.clearPoseOffsetJoint, StdMap.find?_erase_ne _ _ _ hj]
  · simp [InteractionHandler.clearLastEndEffectorMarkerPose, StdMap.find?_erase_ne _ _ _ he]
  · simp [InteractionHandler.clearLastJointMarkerPose, StdMap.find?_erase_ne _ _ _ hj]
  · simp [InteractionHandler.handleEndEffector, StdMap.find?_insert_ne _ _ _ _ he]
  · simp [InteractionHandler.handleJoint, StdMap.find?_insert_ne _ _ _ _ hj]

/-- Witness for C3 at concrete inputs: operating on targets named `a` and
`c` leaves the entries stored at `b` unchanged. -/
theorem C3_per_target_isolation_witness :
    (("a" : String) ≠ "b") ∧ (("c" : String) ≠ "b") ∧
    ((sampleHandler.setPoseOffsetEef ⟨"a"⟩ samplePose2).entriesAt "b" = sampleHandler.entriesAt "b" ∧
     (sampleHandler.setPoseOffsetJoint ⟨"c"⟩ samplePose2).entriesAt "b" = sampleHandler.entriesAt "b" ∧
     (sampleHandler.clearPoseOffsetEef ⟨"a"⟩).entriesAt "b" = sampleHandler.entriesAt "b" ∧
     (sampleHandler.clearPoseOffsetJoint ⟨"c"⟩).entriesAt "b" = sampleHandler.entriesAt "b" ∧
     (sampleHandler.clearLastEndEffectorMarkerPose ⟨"a"⟩).entriesAt "b" = sampleHandler.entriesAt "b" ∧
     (sampleHandler.clearLastJointMarkerPose ⟨"c"⟩).entriesAt "b" = sampleHandler.entriesAt "b" ∧
     ((sampleHandler.handleEndEffector ⟨"a"⟩ samplePoseStamped true 7).1).entriesAt "b" = sampleHandler.entriesAt "b" ∧
     ((sampleHandler.handleJoint ⟨"c"⟩ samplePoseStamped true 7).1).entriesAt "b" = sampleHandler.entriesAt "b") :=
  ⟨by decide, by decide,
   C3_per_target_isolation sampleHandler ⟨"a"⟩ ⟨"c"⟩ "b" samplePose2
     samplePoseStamped 7 true (by decide) (by decide)⟩

/-- Claim C8: end-effector and joint targets share the one name-keyed
store: when an `EndEffectorInteraction` and a `JointInteraction` have the
same control-target name, an offset set through one overload is returned
by the other, setting one overwrites the other, clearing through one
clears the other, and a `handleEndEffector` update makes its stored
last pose visible through `getLastJointMarkerPose`. -/
theorem C8_shared_name_keyed_store
    (h : InteractionHandler) (eef : EndEffectorInteraction)
    (vj : JointInteraction) (m m' : Pose) (tpose : PoseStamped)
    (ns : RobotState) (ok : Bool)
    (hname : eef.eef_group = vj.joint_name) :
    (h.setPoseOffsetEef eef m).getPoseOffsetJoint vj = some m ∧
    (h.setPoseOffsetJoint vj m').getPoseOffsetEef eef = some m' ∧
    ((h.setPoseOffsetEef eef m).setPoseOffsetJoint vj m').getPoseOffsetEef eef = some m' ∧
    (h.clearPoseOffsetJoint vj).getPoseOffsetEef eef = none ∧
    ((h.handleEndEffector eef tpose ok ns).1).getLastJointMarkerPose vj = some tpose := by
  refine ⟨?_, ?_, ?_, ?_, ?_⟩
  · simpa [InteractionHandler.setPoseOffsetEef, InteractionHandler.getPoseOffsetJoint, hname]
      using StdMap.find?_insert_self h.offset_map_ vj.joint_name m
  · simpa [InteractionHandler.setPoseOffsetJoint, InteractionHandler.getPoseOffsetEef, hname]
      using StdMap.find?_insert_self h.offset_map_ vj.joint_name m'
  · simpa [InteractionHandler.setPoseOffsetEef, InteractionHandler.setPoseOffsetJoint,
      InteractionHandler.getPoseOffsetEef, hname]
      using StdMap.find?_insert_self (h.offset_map_.insert vj.joint_name m) vj.joint_name m'
  · simpa [InteractionHandler.clearPoseOffsetJoint, InteractionHandler.getPoseOffsetEef, hname]
      using StdMap.find?_erase_self h.offset_map_ vj.joint_name
  · simpa [InteractionHandler.handleEndEffector, InteractionHandler.getLastJointMarkerPose, hname]
      using StdMap.find?_insert_self h.pose_map_ vj.joint_name tpose

/-- Witness for C8 at concrete inputs: an end-effector and a joint both
named `x` alias the same offset and last-pose entries. -/
theorem C8_shared_name_keyed_store_witness :
    ((EndEffectorInteraction.mk "x").eef_group = (JointInteraction.mk "x").joint_name) ∧
    ((sampleHandler.setPoseOffsetEef ⟨"x"⟩ samplePose).getPoseOffsetJoint ⟨"x"⟩ = some samplePose ∧
     (sampleHandler.setPoseOffsetJoint ⟨"x"⟩ samplePose2).getPoseOffsetEef ⟨"x"⟩ = some samplePose2 ∧
     ((sampleHandler.setPoseOffsetEef ⟨"x"⟩ samplePose).setPoseOffsetJoint ⟨"x"⟩ samplePose2).getPoseOffsetEef ⟨"x"⟩ = some samplePose2 ∧
     (sampleHandler.clearPoseOffsetJoint ⟨"x"⟩).getPoseOffsetEef ⟨"x"⟩ = none ∧
     ((sampleHandler.handleEndEffector ⟨"x"⟩ samplePoseStamped false 7).1).getLastJointMarkerPose ⟨"x"⟩ = some samplePoseStamped) :=
  ⟨rfl,
   C8_shared_name_keyed_store sampleHandler ⟨"x"⟩ ⟨"x"⟩ samplePose samplePose2
     samplePoseStamped 7 false rfl⟩
